import Mathlib

/-!
Verification of the scheduled content-generation control loop of the `wr`
repository (content scheduler component).

The development shallowly embeds the scheduler's core functions:

* `calculateNextRun` — the Next-Run Calculator (frequency/day/time → next
  trigger timestamp), including its JavaScript `Date` arithmetic
  (`setHours`, `setDate`, `setMonth`, `getDay`) over the proleptic
  Gregorian calendar;
* `checkSchedules` — the Schedule Poller's single tick;
* `generateScheduledContent` — the Run Executor's status/result/nextRun
  update logic, including its term-collision soft-success policy.

Modelling conventions:

* A JavaScript `Date` is modelled by `DT`: a civil datetime
  (year, month 1–12, day-of-month, minute-of-day) in a fixed timezone with
  no DST (the code does all its arithmetic in one local timezone).
  Instants are compared through `toAbs`, the minute count from the epoch
  0000-01-01T00:00.  Dates before year 0 do not occur in any modelled run.
* The several `new Date()` calls that a single run performs within
  milliseconds of each other are modelled as one instant `now`.
* An Invalid `Date` (NaN time value), whose `toISOString()` throws a
  `RangeError`, is modelled by an `Option` result: `none` = the call threw.
* JavaScript strings are Lean `String`s; the character-level helpers used
  by the code (`toLowerCase`, `split(":")`, `Number`, `includes`,
  `indexOf`) are re-implemented on `List Char` so that they evaluate
  inside the kernel.  `Number` is modelled on the fragment actually
  reachable here: strings of decimal digits (and the empty string, which
  is `0` in JavaScript); every other string is mapped to NaN.  Exotic
  numeric syntaxes (signs, decimals, whitespace, hex) are outside the
  modelled fragment and no theorem below quantifies over them.
-/

set_option maxRecDepth 8000

/-! ## Calendar model (JavaScript `Date` arithmetic) -/

/-- Civil datetime: year, month (1–12), day of month (1-based), and
minute of day (0–1439). Models a JavaScript `Date` in a fixed timezone. -/
structure DT where
  year : Nat
  month : Nat
  day : Nat
  minute : Nat
deriving Repr, DecidableEq

/-- Gregorian leap-year rule (as used by JavaScript `Date`). -/
def isLeap (y : Nat) : Bool := (y % 4 == 0 && y % 100 != 0) || (y % 400 == 0)

/-- Number of days in month `m` of a year with leap flag `leap`
(months outside 1–12 never occur in a valid `DT` and are given 0 days). -/
def monthLen (leap : Bool) (m : Nat) : Nat :=
  match m with
  | 1 => 31 | 2 => if leap then 29 else 28 | 3 => 31 | 4 => 30
  | 5 => 31 | 6 => 30 | 7 => 31 | 8 => 31 | 9 => 30 | 10 => 31
  | 11 => 30 | 12 => 31 | _ => 0

/-- Days in a year with leap flag `leap` strictly before month `m`. -/
def monthStart (leap : Bool) : Nat → Nat
  | 0 => 0
  | m + 1 => monthStart leap m + monthLen leap m

/-- Number of days in month `m` of year `y`. -/
def daysInMonth (y m : Nat) : Nat := monthLen (isLeap y) m

/-- Days in year `y` strictly before month `m`. -/
def daysBeforeMonth (y m : Nat) : Nat := monthStart (isLeap y) m

/-- Days strictly before year `y`, counting from year 0
(365 per year plus one per leap year among 0..y-1). -/
def daysBeforeYear (y : Nat) : Nat :=
  365 * y + (y + 3) / 4 - (y + 99) / 100 + (y + 399) / 400

/-- Day number of the civil date of `dt`, counting 0000-01-01 as day 0. -/
def dayNumber (dt : DT) : Nat :=
  daysBeforeYear dt.year + daysBeforeMonth dt.year dt.month + (dt.day - 1)

/-- Absolute minute count of the instant `dt` from the epoch
0000-01-01T00:00; two `DT`s compare (as JavaScript `Date`s do by their
time value) through this linearization. -/
def toAbs (dt : DT) : Nat := dayNumber dt * 1440 + dt.minute

/-- A `DT` whose fields are in calendar range. -/
def ValidDT (dt : DT) : Prop :=
  1 ≤ dt.month ∧ dt.month ≤ 12 ∧ 1 ≤ dt.day ∧ dt.day ≤ daysInMonth dt.year dt.month
    ∧ dt.minute < 1440

instance (dt : DT) : Decidable (ValidDT dt) := by
  unfold ValidDT; infer_instance

/-- JavaScript `Date.prototype.getDay`: weekday, 0 = Sunday … 6 = Saturday.
0000-01-01 (proleptic Gregorian) is a Saturday, weekday 6. -/
def getDay (dt : DT) : Nat := (dayNumber dt + 6) % 7

/-- The civil day after `dt` (same minute of day), with month/year rollover. -/
def nextDay (dt : DT) : DT :=
  if dt.day < daysInMonth dt.year dt.month then
    { year := dt.year, month := dt.month, day := dt.day + 1, minute := dt.minute }
  else if dt.month < 12 then
    { year := dt.year, month := dt.month + 1, day := 1, minute := dt.minute }
  else
    { year := dt.year + 1, month := 1, day := 1, minute := dt.minute }

/-- Advance `dt` by `n` civil days; models `d.setDate(d.getDate() + n)`
for `n ≥ 0` (JavaScript normalizes day-of-month overflow). -/
def addDays (dt : DT) : Nat → DT
  | 0 => dt
  | n + 1 => addDays (nextDay dt) n

/-- Models `d.setHours(h, m, 0, 0)` for non-negative numeric `h`, `m`:
the instant `h*60 + m` minutes after local midnight of `d`'s day
(JavaScript spills an out-of-range time of day into subsequent days). -/
def setHoursMinutes (dt : DT) (h m : Nat) : DT :=
  addDays { year := dt.year, month := dt.month, day := dt.day,
            minute := (h * 60 + m) % 1440 } ((h * 60 + m) / 1440)

/-- Models `d.setMonth(d.getMonth() + 1)`: keep the day-of-month and
minute, increment the month (December wraps to January of the next year),
normalizing day-of-month overflow by spilling into the following month
(ECMAScript `MakeDay`: day 1 of the new month plus `day - 1` days). -/
def setMonthPlus1 (dt : DT) : DT :=
  if dt.month = 12 then
    addDays { year := dt.year + 1, month := 1, day := 1, minute := dt.minute } (dt.day - 1)
  else
    addDays { year := dt.year, month := dt.month + 1, day := 1, minute := dt.minute } (dt.day - 1)

/-! ### Calendar lemmas -/

theorem isLeap_iff (y : Nat) :
    isLeap y = true ↔ ((y % 4 = 0 ∧ y % 100 ≠ 0) ∨ y % 400 = 0) := by
  simp [isLeap]

theorem isLeap_false_iff (y : Nat) :
    isLeap y = false ↔ ((y % 4 ≠ 0 ∨ y % 100 = 0) ∧ y % 400 ≠ 0) := by
  rw [← Bool.not_eq_true, not_iff_comm, isLeap_iff]
  tauto

set_option maxHeartbeats 1000000 in
theorem daysBeforeYear_succ (y : Nat) :
    daysBeforeYear (y + 1) = daysBeforeYear y + (if isLeap y then 366 else 365) := by
  by_cases h : isLeap y = true
  · rw [if_pos h]
    have h2 := (isLeap_iff y).mp h
    unfold daysBeforeYear
    omega
  · rw [if_neg h]
    have h2 := (isLeap_false_iff y).mp (by simpa using h)
    unfold daysBeforeYear
    omega

theorem monthStart_year (leap : Bool) :
    monthStart leap 12 + monthLen leap 12 = (if leap then 366 else 365) := by
  cases leap <;> rfl

theorem monthLen_pos (leap : Bool) (m : Nat) (h1 : 1 ≤ m) (hm : m ≤ 12) :
    0 < monthLen leap m := by
  cases leap <;> interval_cases m <;> decide

theorem monthStart_succ (leap : Bool) (m : Nat) :
    monthStart leap (m + 1) = monthStart leap m + monthLen leap m := rfl

theorem validDT_mk (y mo d mi : Nat) (h1 : 1 ≤ mo) (h2 : mo ≤ 12) (h3 : 1 ≤ d)
    (h4 : d ≤ daysInMonth y mo) (h5 : mi < 1440) :
    ValidDT { year := y, month := mo, day := d, minute := mi } :=
  ⟨h1, h2, h3, h4, h5⟩

theorem toAbs_mk (y mo d mi : Nat) :
    toAbs { year := y, month := mo, day := d, minute := mi }
      = (daysBeforeYear y + monthStart (isLeap y) mo + (d - 1)) * 1440 + mi := rfl

theorem toAbs_eq (dt : DT) :
    toAbs dt
      = (daysBeforeYear dt.year + monthStart (isLeap dt.year) dt.month + (dt.day - 1)) * 1440
        + dt.minute := rfl

/-- The count of days in one whole year, expressed through the month table. -/
theorem daysBeforeYear_succ_months (y : Nat) :
    daysBeforeYear (y + 1)
      = daysBeforeYear y + (monthStart (isLeap y) 12 + monthLen (isLeap y) 12) := by
  rw [monthStart_year, daysBeforeYear_succ]

theorem monthLen12_eq (leap : Bool) : monthLen leap 12 = 31 := by cases leap <;> rfl

theorem monthStart1_eq (leap : Bool) : monthStart leap 1 = 0 := by cases leap <;> rfl

theorem toAbs_nextDay (dt : DT) (h : ValidDT dt) :
    toAbs (nextDay dt) = toAbs dt + 1440 := by
  obtain ⟨h1, h2, h3, h4, h5⟩ := h
  unfold daysInMonth at h4
  unfold nextDay daysInMonth
  split
  · rename_i hd
    rw [toAbs_mk, toAbs_eq]
    omega
  · rename_i hd
    split
    · rename_i hm
      rw [toAbs_mk, toAbs_eq, monthStart_succ]
      omega
    · rename_i hm
      have hm12 : dt.month = 12 := by omega
      have hyy := daysBeforeYear_succ_months dt.year
      have hlen12 := monthLen12_eq (isLeap dt.year)
      rw [toAbs_mk, toAbs_eq, monthStart1_eq]
      rw [hm12] at h4 hd ⊢
      omega

theorem validDT_nextDay (dt : DT) (h : ValidDT dt) : ValidDT (nextDay dt) := by
  obtain ⟨h1, h2, h3, h4, h5⟩ := h
  unfold nextDay
  split
  · rename_i hd
    exact validDT_mk _ _ _ _ h1 h2 (by omega) (by omega) h5
  · split
    · rename_i hd hm
      exact validDT_mk _ _ _ _ (by omega) (by omega) (by omega)
        (monthLen_pos (isLeap dt.year) (dt.month + 1) (by omega) (by omega)) h5
    · exact validDT_mk _ _ _ _ (by omega) (by omega) (by omega)
        (monthLen_pos (isLeap (dt.year + 1)) 1 (by omega) (by omega)) h5

theorem nextDay_minute (dt : DT) : (nextDay dt).minute = dt.minute := by
  unfold nextDay
  split
  · rfl
  · split <;> rfl

theorem addDays_spec (n : Nat) : ∀ dt : DT, ValidDT dt →
    ValidDT (addDays dt n) ∧ toAbs (addDays dt n) = toAbs dt + n * 1440
      ∧ (addDays dt n).minute = dt.minute := by
  induction n with
  | zero => intro dt h; exact ⟨h, by simp [addDays], rfl⟩
  | succ n ih =>
    intro dt h
    have hv := validDT_nextDay dt h
    obtain ⟨hv2, habs, hmin⟩ := ih (nextDay dt) hv
    refine ⟨hv2, ?_, by rw [addDays, hmin, nextDay_minute]⟩
    rw [addDays, habs, toAbs_nextDay dt h]
    ring

theorem addDays_addDays (a b : Nat) : ∀ dt : DT,
    addDays (addDays dt a) b = addDays dt (a + b) := by
  induction a with
  | zero => intro dt; simp [addDays]
  | succ a ih =>
    intro dt
    have h1 : addDays dt (a + 1) = addDays (nextDay dt) a := rfl
    have h2 : addDays dt (a + 1 + b) = addDays (nextDay dt) (a + b) := by
      have : a + 1 + b = (a + b) + 1 := by omega
      rw [this]
      rfl
    rw [h1, h2]
    exact ih (nextDay dt)

theorem dayNumber_addDays (dt : DT) (n : Nat) (h : ValidDT dt) :
    dayNumber (addDays dt n) = dayNumber dt + n := by
  obtain ⟨hv, habs, hmin⟩ := addDays_spec n dt h
  simp only [toAbs, hmin] at habs
  omega

/-- Advancing the month (with rollover) moves to a strictly later instant. -/
theorem setMonthPlus1_spec (dt : DT) (h : ValidDT dt) :
    ValidDT (setMonthPlus1 dt) ∧ toAbs dt < toAbs (setMonthPlus1 dt) := by
  obtain ⟨h1, h2, h3, h4, h5⟩ := h
  unfold setMonthPlus1
  split
  · rename_i hm12
    have hvb := validDT_mk (dt.year + 1) 1 1 dt.minute (by omega) (by omega) (by omega)
      (monthLen_pos (isLeap (dt.year + 1)) 1 (by omega) (by omega)) h5
    obtain ⟨hv, habs, _⟩ := addDays_spec (dt.day - 1) _ hvb
    refine ⟨hv, ?_⟩
    rw [habs]
    have hyy := daysBeforeYear_succ_months dt.year
    have hlen12 := monthLen12_eq (isLeap dt.year)
    have hday : dt.day ≤ monthLen (isLeap dt.year) 12 := by
      unfold daysInMonth at h4
      rw [hm12] at h4
      exact h4
    rw [toAbs_mk (dt.year + 1) 1 1 dt.minute, toAbs_eq dt, monthStart1_eq, hm12]
    omega
  · rename_i hm12
    have hvb := validDT_mk dt.year (dt.month + 1) 1 dt.minute (by omega) (by omega) (by omega)
      (monthLen_pos (isLeap dt.year) (dt.month + 1) (by omega) (by omega)) h5
    obtain ⟨hv, habs, _⟩ := addDays_spec (dt.day - 1) _ hvb
    refine ⟨hv, ?_⟩
    rw [habs]
    rw [toAbs_mk dt.year (dt.month + 1) 1 dt.minute, toAbs_eq dt, monthStart_succ]
    have := monthLen_pos (isLeap dt.year) dt.month h1 (by omega)
    unfold daysInMonth at h4
    omega

theorem setHoursMinutes_eq (dt : DT) (h m : Nat) (hh : h < 24) (hm : m < 60) :
    setHoursMinutes dt h m
      = { year := dt.year, month := dt.month, day := dt.day, minute := h * 60 + m } := by
  unfold setHoursMinutes
  have h1 : (h * 60 + m) % 1440 = h * 60 + m := Nat.mod_eq_of_lt (by omega)
  have h2 : (h * 60 + m) / 1440 = 0 := Nat.div_eq_of_lt (by omega)
  rw [h1, h2]
  rfl

/-! ## JavaScript string helpers

The scheduler uses `toLowerCase`, `split(":")`, `Number`, `indexOf` and
`includes`. They are re-implemented here on `List Char` so that they
reduce inside the kernel. -/

/-- ASCII lowercasing of one character. -/
def lowerChar (c : Char) : Char :=
  if 65 ≤ c.toNat ∧ c.toNat ≤ 90 then Char.ofNat (c.toNat + 32) else c

/-- Models `s.toLowerCase()` (the strings reaching it here are ASCII). -/
def jsToLowerCase (s : String) : String := String.mk (s.data.map lowerChar)

/-- Split a character list at every occurrence of `sep`. -/
def splitOnChar (sep : Char) : List Char → List (List Char)
  | [] => [[]]
  | c :: rest =>
    match splitOnChar sep rest with
    | [] => [[c]]
    | h :: t => if c = sep then [] :: h :: t else (c :: h) :: t

/-- Models `s.split(":")` (the result is never the empty list). -/
def jsSplitColon (s : String) : List String :=
  (splitOnChar ':' s.data).map String.mk

/-- Value of a list of decimal digit characters. -/
def digitsToNat (l : List Char) : Nat :=
  l.foldl (fun acc c => acc * 10 + (c.toNat - 48)) 0

/-- Models JavaScript `Number(s)` on the fragment reachable in the
scheduler: the empty string is `0`, a string of decimal digits is its
value, anything else is NaN (`none`). Signs, decimals, whitespace and
hex syntax never reach this code and are outside the modelled fragment. -/
def jsNumber (s : String) : Option Nat :=
  if s.data = [] then some 0
  else if s.data.all (fun c => 48 ≤ c.toNat && c.toNat ≤ 57) then some (digitsToNat s.data)
  else none

/-- Models `Array.prototype.indexOf` on an array of strings: the index of
the first occurrence, or -1 when absent. -/
def jsIndexOf : List String → String → Int
  | [], _ => -1
  | a :: rest, x =>
    if a = x then 0
    else
      let r := jsIndexOf rest x
      if r = -1 then -1 else r + 1

/-- Is `p` a prefix of the second list? -/
def isPrefixL : List Char → List Char → Bool
  | [], _ => true
  | _ :: _, [] => false
  | a :: as, b :: bs => a == b && isPrefixL as bs

/-- Does the second list occur as a contiguous sublist? -/
def containsSub (needle : List Char) : List Char → Bool
  | [] => isPrefixL needle []
  | c :: rest => isPrefixL needle (c :: rest) || containsSub needle rest

/-- Models `s.includes(sub)`. -/
def jsIncludes (s sub : String) : Bool := containsSub sub.data s.data

/-! ## The Next-Run Calculator (`calculateNextRun`) -/

/-- The `days` array of the weekly/biweekly branches of
`calculateNextRun`. -/
def weekDays : List String :=
  ["sunday", "monday", "tuesday", "wednesday", "thursday", "friday", "saturday"]

/-- Shallow embedding of `calculateNextRun(frequency, dayOfWeek?, time?)`
from the content scheduler component, at the current instant `now`
(the source reads `now` and the initial `nextRun` from two adjacent
`new Date()` calls, modelled as the same instant).

Result `none` models the one aborting path: a `time` whose components do
not all parse as numbers makes `setHours` produce an Invalid `Date`
(NaN time value); every comparison against it is false, and the final
`toISOString()` throws a `RangeError`. -/
def calculateNextRun (frequency : String) (dayOfWeek : Option String)
    (time : Option String) (now : DT) : Option DT :=
  -- if (time) { const [hours, minutes] = time.split(":").map(Number);
  --             nextRun.setHours(hours, minutes, 0, 0) }
  let afterSetTime : Option DT :=
    match time with
    | none => some now
    | some t =>
      if t = "" then some now  -- the empty string is falsy: the block is skipped
      else
        match (jsSplitColon t).map jsNumber with
        | some h :: some m :: _ => some (setHoursMinutes now h m)
        | _ => none  -- a NaN or undefined component: Invalid Date
  match afterSetTime with
  | none => none  -- Invalid Date: `nextRun <= now` is false, toISOString() throws
  | some nextRun =>
    -- if (nextRun <= now) { ... }
    if toAbs nextRun ≤ toAbs now then
      if frequency = "daily" then some (addDays nextRun 1)
      else
        -- first move to tomorrow, then adjust by frequency
        let c := addDays nextRun 1
        if frequency = "weekly" then
          match dayOfWeek with
          | none => some c
          | some d =>
            if d = "" then some c  -- falsy: the dayOfWeek block is skipped
            else
              let targetDay : Int := jsIndexOf weekDays (jsToLowerCase d)
              if targetDay ≠ -1 then
                let currentDay : Int := getDay c
                let daysToAdd : Int := (targetDay + 7 - currentDay) % 7
                some (addDays c (if daysToAdd = 0 then (7 : Int) else daysToAdd).toNat)
              else some c
        else if frequency = "biweekly" then
          match dayOfWeek with
          | none => some c
          | some d =>
            if d = "" then some c
            else
              let targetDay : Int := jsIndexOf weekDays (jsToLowerCase d)
              if targetDay ≠ -1 then
                let currentDay : Int := getDay c
                let daysToAdd : Int := (targetDay + 7 - currentDay) % 7
                some (addDays c (if daysToAdd = 0 then (14 : Int) else daysToAdd + 7).toNat)
              else some c
        else if frequency = "monthly" then some (setMonthPlus1 c)
        else some c
    else some nextRun

/-- 2024-01-01 was a Monday (sanity check of the weekday base). -/
example : getDay { year := 2024, month := 1, day := 1, minute := 0 } = 1 := by decide

/-- Scenario A of the specification: daily at 09:00 from
2024-01-01T10:00 fires 2024-01-02T09:00. -/
example : calculateNextRun "daily" none (some "09:00")
    { year := 2024, month := 1, day := 1, minute := 600 }
    = some { year := 2024, month := 1, day := 2, minute := 540 } := by decide

/-- Scenario B of the specification: weekly on Monday at 09:00 from a
Monday at 10:00 fires the following Monday at 09:00. -/
example : calculateNextRun "weekly" (some "monday") (some "09:00")
    { year := 2024, month := 1, day := 1, minute := 600 }
    = some { year := 2024, month := 1, day := 8, minute := 540 } := by decide

/-! ## Schedule entities, the Poller tick, and the Run Executor -/

/-- Schedule lifecycle status (the TS union
"scheduled" | "completed" | "failed" | "in-progress"). -/
inductive Status where
  | scheduled
  | completed
  | failed
  | inProgress
deriving Repr, DecidableEq

/-- The `ScheduledPost` record of the scheduler component.  Optional TS
fields are `Option`s.  `lastRun`/`nextRun` are ISO-timestamp strings in
TS, produced by `toISOString` and re-parsed with `new Date`; they are
modelled as the parsed instants, with `none` for an absent (falsy)
value. -/
structure ScheduledPost where
  id : String
  date : String
  time : String
  topic : String
  status : Status
  frequency : Option String
  dayOfWeek : Option String
  contentType : Option String
  wordCount : Option Nat
  tone : Option String
  audience : Option String
  autoPublish : Option Bool
  lastRun : Option DT
  nextRun : Option DT
  result : Option String
deriving Repr, DecidableEq

/-- One tick of the Schedule Poller (`checkSchedules`) at instant `now`:
each schedule still in `scheduled` status whose parsed `nextRun` is due
(`nextRun <= now`) moves to `in-progress` with `lastRun` stamped `now`
(and is dispatched to the Run Executor, modelled separately); every other
entry of the list is left as it is. -/
def checkOne (now : DT) (schedule : ScheduledPost) : ScheduledPost :=
  if schedule.status ≠ Status.scheduled then schedule  -- continue
  else
    match schedule.nextRun with
    | none => schedule  -- a falsy nextRun is never due
    | some nextRun =>
      if toAbs nextRun ≤ toAbs now then
        { schedule with status := Status.inProgress, lastRun := some now }
      else schedule

/-- The whole tick: the loop body applied to every entry of the list (the
source mutates `updatedSchedules[i]` in place, which is a map). -/
def checkSchedules (now : DT) (schedules : List ScheduledPost) : List ScheduledPost :=
  schedules.map (checkOne now)

/-- A JavaScript thrown value: an `Error` instance carrying a message, or
any other thrown value (for which `error instanceof Error` is false). -/
inductive Thrown where
  | error (message : String)
  | other
deriving Repr, DecidableEq

/-- Outcome of the `generateContentAction` call (the Generation
Collaborator): content plus suggested categories, or a throw. -/
inductive GenOutcome where
  | ok (content : String) (suggestedCategories : List String)
  | thrown (e : Thrown)
deriving Repr, DecidableEq

/-- Outcome of the `publishPostAction` call (the Publishing
Collaborator): a result record with a `success` flag and optional
`error` string, or a throw. -/
inductive PubOutcome where
  | ok (success : Bool) (error : Option String)
  | thrown (e : Thrown)
deriving Repr, DecidableEq

/-- Observable effect of one Run Executor invocation on its schedule:
the intermediate "Generating content..." state, the state written when
the run ends, the `setTimeout` delay, and the state after that delay
fires. -/
structure ExecOutcome where
  intermediate : ScheduledPost
  final : ScheduledPost
  delayMs : Nat
  afterDelay : ScheduledPost
deriving Repr, DecidableEq

/-- The user-friendly message substituted for a term-collision error. -/
def termExistsFriendlyMsg : String :=
  "A category with this name already exists. The post was still created successfully."

/-- Shallow embedding of `generateScheduledContent` (the Run Executor)
acting on schedule `s` at instant `now`, when the generation call ends as
`gen` and the publish call (if reached) as `pub`.

The embedding mirrors the source's control flow: a publish result with
`success: false` is re-thrown as an `Error` whose message is
`result.error || "Failed to publish post"`; the catch block treats any
`Error` whose message contains "term_exists" as a soft success
(recomputing `nextRun` and reverting to `scheduled` after the same
5000 ms delay as the success path), and every other throw as a hard
failure (status `failed`, `result` = the message — or the default
"Failed to generate content" for a non-`Error` throw — with `lastRun`
and `nextRun` untouched, reverting to `scheduled` after 10000 ms).

An `undefined` frequency argument compares unequal to every frequency
literal in `calculateNextRun`, exactly like the empty string, so it is
passed as `""`.  UI/storage side effects (toasts, localStorage) are
assumed not to throw. -/
def generateScheduledContent (s : ScheduledPost) (now : DT)
    (gen : GenOutcome) (pub : PubOutcome) : ExecOutcome :=
  let intermediate : ScheduledPost :=
    { s with status := Status.inProgress, result := some "Generating content..." }
  let catchBlock : Thrown → ExecOutcome := fun e =>
    match e with
    | Thrown.error msg =>
      if jsIncludes msg "term_exists" then
        let final : ScheduledPost :=
          { s with
            status := Status.completed,
            lastRun := some now,
            nextRun := calculateNextRun (s.frequency.getD "") s.dayOfWeek (some s.time) now,
            result := some ("Content generated with a warning: " ++ termExistsFriendlyMsg) }
        { intermediate := intermediate,
          final := final,
          delayMs := 5000,
          afterDelay := { final with status := Status.scheduled } }
      else
        let final : ScheduledPost := { s with status := Status.failed, result := some msg }
        { intermediate := intermediate,
          final := final,
          delayMs := 10000,
          afterDelay := { final with status := Status.scheduled } }
    | Thrown.other =>
      let final : ScheduledPost :=
        { s with status := Status.failed, result := some "Failed to generate content" }
      { intermediate := intermediate,
        final := final,
        delayMs := 10000,
        afterDelay := { final with status := Status.scheduled } }
  match gen with
  | GenOutcome.thrown e => catchBlock e
  | GenOutcome.ok _content _cats =>
    match pub with
    | PubOutcome.thrown e => catchBlock e
    | PubOutcome.ok success error =>
      if success = false then
        catchBlock (Thrown.error (match error with
          | some msg => if msg = "" then "Failed to publish post" else msg
          | none => "Failed to publish post"))
      else
        let final : ScheduledPost :=
          { s with
            status := Status.completed,
            lastRun := some now,
            nextRun := calculateNextRun (s.frequency.getD "") s.dayOfWeek (some s.time) now,
            result := some (if s.autoPublish.getD false then
                "Content generated and published successfully"
              else "Content generated and saved as draft") }
        { intermediate := intermediate,
          final := final,
          delayMs := 5000,
          afterDelay := { final with status := Status.scheduled } }

/-! ## Helper lemmas about `calculateNextRun` -/

/-- The naive candidate of `calculateNextRun`: today's date at the given
time of day (`h` hours, `m` minutes). -/
def todayAt (now : DT) (h m : Nat) : DT :=
  { year := now.year, month := now.month, day := now.day, minute := h * 60 + m }

theorem validDT_todayAt (now : DT) (h m : Nat) (hv : ValidDT now)
    (hh : h < 24) (hm : m < 60) : ValidDT (todayAt now h m) := by
  obtain ⟨h1, h2, h3, h4, h5⟩ := hv
  exact validDT_mk _ _ _ _ h1 h2 h3 h4 (by omega)

theorem dayNumber_todayAt (now : DT) (h m : Nat) :
    dayNumber (todayAt now h m) = dayNumber now := rfl

theorem getDay_addDays (dt : DT) (n : Nat) (hv : ValidDT dt) :
    getDay (addDays dt n) = (getDay dt + n) % 7 := by
  unfold getDay
  rw [dayNumber_addDays dt n hv]
  omega

/-- Any day strictly after today's candidate day is strictly after `now`. -/
theorem toAbs_lt_addDays_todayAt (now : DT) (h m : Nat) (hv : ValidDT now)
    (hh : h < 24) (hm : m < 60) (k : Nat) :
    toAbs now < toAbs (addDays (todayAt now h m) (k + 1)) := by
  obtain ⟨_, habs, _⟩ := addDays_spec (k + 1) _ (validDT_todayAt now h m hv hh hm)
  rw [habs]
  have h1 : toAbs (todayAt now h m) = dayNumber now * 1440 + (h * 60 + m) := rfl
  have h2 : toAbs now = dayNumber now * 1440 + now.minute := rfl
  have h5 : now.minute < 1440 := hv.2.2.2.2
  omega

/-- Branch lemma: candidate still in the future — returned unchanged. -/
theorem cnr_notDue (frequency : String) (dayOfWeek : Option String)
    (t : String) (h m : Nat) (now : DT)
    (hne : t ≠ "") (hp : (jsSplitColon t).map jsNumber = [some h, some m])
    (hh : h < 24) (hm : m < 60)
    (hgt : ¬ toAbs (todayAt now h m) ≤ toAbs now) :
    calculateNextRun frequency dayOfWeek (some t) now = some (todayAt now h m) := by
  simp only [todayAt] at hgt ⊢
  unfold calculateNextRun
  dsimp only
  rw [if_neg hne, hp]
  dsimp only
  rw [setHoursMinutes_eq now h m hh hm]
  rw [if_neg hgt]

/-- Branch lemma: daily frequency with the candidate already passed. -/
theorem cnr_daily_due (dayOfWeek : Option String)
    (t : String) (h m : Nat) (now : DT)
    (hne : t ≠ "") (hp : (jsSplitColon t).map jsNumber = [some h, some m])
    (hh : h < 24) (hm : m < 60)
    (hle : toAbs (todayAt now h m) ≤ toAbs now) :
    calculateNextRun "daily" dayOfWeek (some t) now = some (addDays (todayAt now h m) 1) := by
  simp only [todayAt] at hle ⊢
  unfold calculateNextRun
  dsimp only
  rw [if_neg hne, hp]
  dsimp only
  rw [setHoursMinutes_eq now h m hh hm]
  rw [if_pos hle]
  rw [if_pos rfl]

/-- Branch lemma: monthly frequency with the candidate already passed. -/
theorem cnr_monthly_due (dayOfWeek : Option String)
    (t : String) (h m : Nat) (now : DT)
    (hne : t ≠ "") (hp : (jsSplitColon t).map jsNumber = [some h, some m])
    (hh : h < 24) (hm : m < 60)
    (hle : toAbs (todayAt now h m) ≤ toAbs now) :
    calculateNextRun "monthly" dayOfWeek (some t) now
      = some (setMonthPlus1 (addDays (todayAt now h m) 1)) := by
  simp only [todayAt] at hle ⊢
  unfold calculateNextRun
  dsimp only
  rw [if_neg hne, hp]
  dsimp only
  rw [setHoursMinutes_eq now h m hh hm]
  rw [if_pos hle]
  rw [if_neg (by decide : ¬ ("monthly" : String) = "daily")]
  rw [if_neg (by decide : ¬ ("monthly" : String) = "weekly")]
  rw [if_neg (by decide : ¬ ("monthly" : String) = "biweekly")]
  rw [if_pos rfl]

/-- Branch lemma: an unrecognized frequency with the candidate already
passed falls back to tomorrow at the given time. -/
theorem cnr_other_due (frequency : String) (dayOfWeek : Option String)
    (t : String) (h m : Nat) (now : DT)
    (hne : t ≠ "") (hp : (jsSplitColon t).map jsNumber = [some h, some m])
    (hh : h < 24) (hm : m < 60)
    (hf1 : frequency ≠ "daily") (hf2 : frequency ≠ "weekly")
    (hf3 : frequency ≠ "biweekly") (hf4 : frequency ≠ "monthly")
    (hle : toAbs (todayAt now h m) ≤ toAbs now) :
    calculateNextRun frequency dayOfWeek (some t) now
      = some (addDays (todayAt now h m) 1) := by
  simp only [todayAt] at hle ⊢
  unfold calculateNextRun
  dsimp only
  rw [if_neg hne, hp]
  dsimp only
  rw [setHoursMinutes_eq now h m hh hm]
  rw [if_pos hle]
  rw [if_neg hf1]
  rw [if_neg hf2, if_neg hf3, if_neg hf4]

/-- Branch lemma: weekly frequency, candidate passed, valid day name. -/
theorem cnr_weekly_due (d : String) (t : String) (h m : Nat) (now : DT)
    (hne : t ≠ "") (hp : (jsSplitColon t).map jsNumber = [some h, some m])
    (hh : h < 24) (hm : m < 60) (hdne : d ≠ "")
    (w : Int) (hw : jsIndexOf weekDays (jsToLowerCase d) = w) (hwne : w ≠ -1)
    (hle : toAbs (todayAt now h m) ≤ toAbs now) :
    calculateNextRun "weekly" (some d) (some t) now
      = some (addDays (addDays (todayAt now h m) 1)
          (if (w + 7 - (getDay (addDays (todayAt now h m) 1) : Int)) % 7 = 0 then (7 : Int)
           else (w + 7 - (getDay (addDays (todayAt now h m) 1) : Int)) % 7).toNat) := by
  simp only [todayAt] at hle ⊢
  unfold calculateNextRun
  dsimp only
  rw [if_neg hne, hp]
  dsimp only
  rw [setHoursMinutes_eq now h m hh hm]
  rw [if_pos hle]
  rw [if_neg (by decide : ¬ ("weekly" : String) = "daily")]
  rw [if_pos rfl]
  rw [if_neg hdne, hw]
  rw [if_pos hwne]

/-- Branch lemma: biweekly frequency, candidate passed, valid day name. -/
theorem cnr_biweekly_due (d : String) (t : String) (h m : Nat) (now : DT)
    (hne : t ≠ "") (hp : (jsSplitColon t).map jsNumber = [some h, some m])
    (hh : h < 24) (hm : m < 60) (hdne : d ≠ "")
    (w : Int) (hw : jsIndexOf weekDays (jsToLowerCase d) = w) (hwne : w ≠ -1)
    (hle : toAbs (todayAt now h m) ≤ toAbs now) :
    calculateNextRun "biweekly" (some d) (some t) now
      = some (addDays (addDays (todayAt now h m) 1)
          (if (w + 7 - (getDay (addDays (todayAt now h m) 1) : Int)) % 7 = 0 then (14 : Int)
           else (w + 7 - (getDay (addDays (todayAt now h m) 1) : Int)) % 7 + 7).toNat) := by
  simp only [todayAt] at hle ⊢
  unfold calculateNextRun
  dsimp only
  rw [if_neg hne, hp]
  dsimp only
  rw [setHoursMinutes_eq now h m hh hm]
  rw [if_pos hle]
  rw [if_neg (by decide : ¬ ("biweekly" : String) = "daily")]
  rw [if_neg (by decide : ¬ ("biweekly" : String) = "weekly")]
  rw [if_pos rfl]
  rw [if_neg hdne, hw]
  rw [if_pos hwne]

/-- Branch lemma: weekly/biweekly frequency with the candidate passed but
no usable day name (absent, empty — falsy — or not found by `indexOf`):
only the baseline one-day advance happens. -/
theorem cnr_weekbi_noday (frequency : String) (dayOfWeek : Option String)
    (t : String) (h m : Nat) (now : DT)
    (hne : t ≠ "") (hp : (jsSplitColon t).map jsNumber = [some h, some m])
    (hh : h < 24) (hm : m < 60)
    (hf : frequency = "weekly" ∨ frequency = "biweekly")
    (hnod : dayOfWeek = none
      ∨ (∃ d, dayOfWeek = some d ∧ (d = "" ∨ jsIndexOf weekDays (jsToLowerCase d) = -1)))
    (hle : toAbs (todayAt now h m) ≤ toAbs now) :
    calculateNextRun frequency dayOfWeek (some t) now
      = some (addDays (todayAt now h m) 1) := by
  simp only [todayAt] at hle ⊢
  rcases hf with hf | hf <;> subst hf <;>
  unfold calculateNextRun <;>
  dsimp only <;>
  rw [if_neg hne, hp] <;>
  dsimp only <;>
  rw [setHoursMinutes_eq now h m hh hm] <;>
  rw [if_pos hle]
  · rw [if_neg (by decide : ¬ ("weekly" : String) = "daily")]
    rw [if_pos rfl]
    rcases hnod with hnod | ⟨d, hd, hcase⟩
    · subst hnod
      rfl
    · subst hd
      dsimp only
      by_cases hde : d = ""
      · rw [if_pos hde]
      · rw [if_neg hde]
        rcases hcase with hcase | hcase
        · exact absurd hcase hde
        · rw [hcase]
          rw [if_neg (by decide : ¬ ((-1 : Int) ≠ -1))]
  · rw [if_neg (by decide : ¬ ("biweekly" : String) = "daily")]
    rw [if_neg (by decide : ¬ ("biweekly" : String) = "weekly")]
    rw [if_pos rfl]
    rcases hnod with hnod | ⟨d, hd, hcase⟩
    · subst hnod
      rfl
    · subst hd
      dsimp only
      by_cases hde : d = ""
      · rw [if_pos hde]
      · rw [if_neg hde]
        rcases hcase with hcase | hcase
        · exact absurd hcase hde
        · rw [hcase]
          rw [if_neg (by decide : ¬ ((-1 : Int) ≠ -1))]

/-- Master helper: for every frequency and dayOfWeek, a well-formed
time-of-day makes `calculateNextRun` return a valid timestamp strictly
after `now`. -/
theorem cnr_future_helper (frequency : String) (dayOfWeek : Option String)
    (t : String) (h m : Nat) (now : DT) (hv : ValidDT now)
    (hne : t ≠ "") (hp : (jsSplitColon t).map jsNumber = [some h, some m])
    (hh : h < 24) (hm : m < 60) :
    ∃ r : DT, calculateNextRun frequency dayOfWeek (some t) now = some r
      ∧ toAbs now < toAbs r ∧ ValidDT r := by
  have hvc : ValidDT (todayAt now h m) := validDT_todayAt now h m hv hh hm
  by_cases hle : toAbs (todayAt now h m) ≤ toAbs now
  · -- the candidate has passed: some advance happens
    have hstep : ∀ k : Nat,
        toAbs now < toAbs (addDays (todayAt now h m) (k + 1))
          ∧ ValidDT (addDays (todayAt now h m) (k + 1)) := fun k =>
      ⟨toAbs_lt_addDays_todayAt now h m hv hh hm k, (addDays_spec (k + 1) _ hvc).1⟩
    by_cases hf1 : frequency = "daily"
    · subst hf1
      rw [cnr_daily_due dayOfWeek t h m now hne hp hh hm hle]
      exact ⟨_, rfl, (hstep 0).1, (hstep 0).2⟩
    by_cases hf4 : frequency = "monthly"
    · subst hf4
      rw [cnr_monthly_due dayOfWeek t h m now hne hp hh hm hle]
      obtain ⟨hvr, hlt⟩ := setMonthPlus1_spec _ (hstep 0).2
      exact ⟨_, rfl, lt_trans (hstep 0).1 hlt, hvr⟩
    by_cases hf23 : frequency = "weekly" ∨ frequency = "biweekly"
    · -- weekly or biweekly: split on whether a usable day name exists
      rcases hdow : dayOfWeek with _ | d
      · rw [cnr_weekbi_noday frequency none t h m now hne hp hh hm hf23 (Or.inl rfl) hle]
        exact ⟨_, rfl, (hstep 0).1, (hstep 0).2⟩
      · by_cases hde : d = ""
        · rw [cnr_weekbi_noday frequency (some d) t h m now hne hp hh hm hf23
            (Or.inr ⟨d, rfl, Or.inl hde⟩) hle]
          exact ⟨_, rfl, (hstep 0).1, (hstep 0).2⟩
        by_cases hwm : jsIndexOf weekDays (jsToLowerCase d) = -1
        · rw [cnr_weekbi_noday frequency (some d) t h m now hne hp hh hm hf23
            (Or.inr ⟨d, rfl, Or.inr hwm⟩) hle]
          exact ⟨_, rfl, (hstep 0).1, (hstep 0).2⟩
        · rcases hf23 with hf | hf <;> subst hf
          · rw [cnr_weekly_due d t h m now hne hp hh hm hde _ rfl hwm hle]
            rw [addDays_addDays]
            rcases Nat.exists_eq_add_of_le
              (Nat.le_add_right 1 ((if (jsIndexOf weekDays (jsToLowerCase d) + 7
                - (getDay (addDays (todayAt now h m) 1) : Int)) % 7 = 0 then (7 : Int)
                else (jsIndexOf weekDays (jsToLowerCase d) + 7
                - (getDay (addDays (todayAt now h m) 1) : Int)) % 7).toNat)) with ⟨k, hk⟩
            exact ⟨_, rfl, by rw [show 1 + _ = k + 1 by omega] at *; exact (hstep k).1,
              by rw [show 1 + _ = k + 1 by omega] at *; exact (hstep k).2⟩
          · rw [cnr_biweekly_due d t h m now hne hp hh hm hde _ rfl hwm hle]
            rw [addDays_addDays]
            rcases Nat.exists_eq_add_of_le
              (Nat.le_add_right 1 ((if (jsIndexOf weekDays (jsToLowerCase d) + 7
                - (getDay (addDays (todayAt now h m) 1) : Int)) % 7 = 0 then (14 : Int)
                else (jsIndexOf weekDays (jsToLowerCase d) + 7
                - (getDay (addDays (todayAt now h m) 1) : Int)) % 7 + 7).toNat)) with ⟨k, hk⟩
            exact ⟨_, rfl, by rw [show 1 + _ = k + 1 by omega] at *; exact (hstep k).1,
              by rw [show 1 + _ = k + 1 by omega] at *; exact (hstep k).2⟩
    · push_neg at hf23
      rw [cnr_other_due frequency dayOfWeek t h m now hne hp hh hm hf1 hf23.1 hf23.2 hf4 hle]
      exact ⟨_, rfl, (hstep 0).1, (hstep 0).2⟩
  · rw [cnr_notDue frequency dayOfWeek t h m now hne hp hh hm hle]
    exact ⟨_, rfl, by omega, hvc⟩

/-! ## Claim theorems -/

/-- A concrete schedule used by the concrete counterexamples/witnesses
(field values as produced by the component's own default schedule). -/
def sampleSchedule : ScheduledPost :=
  { id := "default-schedule",
    date := "2024-01-01",
    time := "09:00",
    topic := "WordPress content",
    status := Status.inProgress,
    frequency := some "weekly",
    dayOfWeek := some "monday",
    contentType := some "blog-post",
    wordCount := some 1500,
    tone := some "professional",
    audience := some "general",
    autoPublish := some true,
    lastRun := none,
    nextRun := some { year := 2024, month := 1, day := 1, minute := 540 },
    result := none }

/-- **C2, counterexample**: a weekly schedule for Friday, evaluated on
Monday 2024-01-01 at 08:00 with time 09:00 (still in the future today),
returns Monday 09:00 — weekday 1, not the target weekday 5.  The
calculator checks the day-of-week only when the candidate has already
passed. -/
theorem C2_counterexample :
    calculateNextRun "weekly" (some "friday") (some "09:00")
        { year := 2024, month := 1, day := 1, minute := 480 }
      = some { year := 2024, month := 1, day := 1, minute := 540 }
    ∧ jsIndexOf weekDays (jsToLowerCase "friday") = 5
    ∧ getDay { year := 2024, month := 1, day := 1, minute := 540 } = 1 := by decide

/-- **C3, counterexample**: a weekly schedule whose target day equals
today's weekday (Monday), with a time-of-day still in the future today,
returns a timestamp on the same calendar day as `now` — not next
cycle's occurrence. -/
theorem C3_counterexample :
    jsIndexOf weekDays (jsToLowerCase "monday")
      = (getDay { year := 2024, month := 1, day := 1, minute := 480 } : Int)
    ∧ calculateNextRun "weekly" (some "monday") (some "09:00")
        { year := 2024, month := 1, day := 1, minute := 480 }
      = some { year := 2024, month := 1, day := 1, minute := 540 } := by decide

/-- **C5, counterexample**: at now = 2024-01-31T08:00 with time 09:00 the
monthly branch is never reached — the candidate (today 09:00) is still in
the future, so the calculator returns 2024-01-31T09:00, the same calendar
date as `now`, advancing by zero calendar months rather than one. -/
theorem C5_counterexample :
    calculateNextRun "monthly" none (some "09:00")
        { year := 2024, month := 1, day := 31, minute := 480 }
      = some { year := 2024, month := 1, day := 31, minute := 540 } := by decide

/-- **C5, amended**: when the time-of-day has already passed
(e.g. now = 2024-01-31T10:00), the monthly branch advances the day-first
candidate by one calendar month with calendar-aware rollover and returns
a valid calendar date: 2024-02-01 + 1 month = 2024-03-01; and from
2024-01-30T10:00 the candidate 2024-01-31 maps to "February 31", which
normalizes to the valid date 2024-03-02 (2024 is a leap year), never an
invalid date. -/
theorem C5_amended_monthly_rollover :
    (calculateNextRun "monthly" none (some "09:00")
        { year := 2024, month := 1, day := 31, minute := 600 }
      = some { year := 2024, month := 3, day := 1, minute := 540 }
      ∧ ValidDT { year := 2024, month := 3, day := 1, minute := 540 })
    ∧ (calculateNextRun "monthly" none (some "09:00")
        { year := 2024, month := 1, day := 30, minute := 600 }
      = some { year := 2024, month := 3, day := 2, minute := 540 }
      ∧ ValidDT { year := 2024, month := 3, day := 2, minute := 540 }) := by decide

/-- **C10, counterexample**: a time string with a non-numeric component
(`"ab"`, whose `Number` is NaN) drives `setHours` to an Invalid Date and
the final `toISOString()` throws a `RangeError` (`none` in the model) —
`calculateNextRun` is not total on every time string. -/
theorem C10_counterexample :
    calculateNextRun "weekly" (some "notaday") (some "ab")
      { year := 2024, month := 1, day := 1, minute := 600 } = none := by decide

theorem getDay_lt (dt : DT) : getDay dt < 7 := by
  unfold getDay
  omega

/-- When the target weekday equals today's weekday and the candidate has
passed, the weekly branch lands exactly 7 days after today's candidate. -/
theorem cnr_sameweekday_weekly (d t : String) (h m : Nat) (now : DT) (hv : ValidDT now)
    (hne : t ≠ "") (hp : (jsSplitColon t).map jsNumber = [some h, some m])
    (hh : h < 24) (hm : m < 60) (hdne : d ≠ "")
    (hw : jsIndexOf weekDays (jsToLowerCase d) = (getDay now : Int))
    (hle : toAbs (todayAt now h m) ≤ toAbs now) :
    calculateNextRun "weekly" (some d) (some t) now
      = some (addDays (todayAt now h m) 7) := by
  have hvc := validDT_todayAt now h m hv hh hm
  have hwne : ((getDay now : Nat) : Int) ≠ -1 := by omega
  rw [cnr_weekly_due d t h m now hne hp hh hm hdne _ hw hwne hle]
  have hgc : getDay (addDays (todayAt now h m) 1) = (getDay now + 1) % 7 := by
    rw [getDay_addDays _ _ hvc]
    rfl
  rw [hgc]
  have hglt : getDay now < 7 := getDay_lt now
  have hdta : ((getDay now : Int) + 7 - (((getDay now + 1) % 7 : Nat) : Int)) % 7 = 6 := by
    omega
  rw [hdta]
  rw [if_neg (by decide : ¬ (6 : Int) = 0)]
  rw [show ((6 : Int)).toNat = 6 from rfl, addDays_addDays]

/-- When the target weekday equals today's weekday and the candidate has
passed, the biweekly branch lands exactly 14 days after today's candidate. -/
theorem cnr_sameweekday_biweekly (d t : String) (h m : Nat) (now : DT) (hv : ValidDT now)
    (hne : t ≠ "") (hp : (jsSplitColon t).map jsNumber = [some h, some m])
    (hh : h < 24) (hm : m < 60) (hdne : d ≠ "")
    (hw : jsIndexOf weekDays (jsToLowerCase d) = (getDay now : Int))
    (hle : toAbs (todayAt now h m) ≤ toAbs now) :
    calculateNextRun "biweekly" (some d) (some t) now
      = some (addDays (todayAt now h m) 14) := by
  have hvc := validDT_todayAt now h m hv hh hm
  have hwne : ((getDay now : Nat) : Int) ≠ -1 := by omega
  rw [cnr_biweekly_due d t h m now hne hp hh hm hdne _ hw hwne hle]
  have hgc : getDay (addDays (todayAt now h m) 1) = (getDay now + 1) % 7 := by
    rw [getDay_addDays _ _ hvc]
    rfl
  rw [hgc]
  have hglt : getDay now < 7 := getDay_lt now
  have hdta : ((getDay now : Int) + 7 - (((getDay now + 1) % 7 : Nat) : Int)) % 7 = 6 := by
    omega
  rw [hdta]
  rw [if_neg (by decide : ¬ (6 : Int) = 0)]
  rw [show ((6 : Int) + 7).toNat = 13 from rfl, addDays_addDays]

/-- **C1**: for every frequency in {daily, weekly, biweekly, monthly},
every dayOfWeek, every well-formed time-of-day `h:m`, and every valid
current instant `now`, the Next-Run Calculator returns a timestamp
strictly greater than `now`. -/
theorem C1_calculateNextRun_strictly_future
    (frequency : String) (dayOfWeek : Option String) (t : String) (h m : Nat) (now : DT)
    (hf : frequency = "daily" ∨ frequency = "weekly" ∨ frequency = "biweekly"
      ∨ frequency = "monthly")
    (hv : ValidDT now) (hne : t ≠ "")
    (hp : (jsSplitColon t).map jsNumber = [some h, some m])
    (hh : h < 24) (hm : m < 60) :
    ∃ r : DT, calculateNextRun frequency dayOfWeek (some t) now = some r
      ∧ toAbs now < toAbs r :=
  (cnr_future_helper frequency dayOfWeek t h m now hv hne hp hh hm).imp
    fun _ hr => ⟨hr.1, hr.2.1⟩

/-- Witness for C1 at a concrete input (weekly/Monday/09:00 on a Monday
at 10:00). -/
theorem C1_witness :
    ∃ r : DT, calculateNextRun "weekly" (some "monday") (some "09:00")
        { year := 2024, month := 1, day := 1, minute := 600 } = some r
      ∧ toAbs { year := 2024, month := 1, day := 1, minute := 600 } < toAbs r :=
  C1_calculateNextRun_strictly_future "weekly" (some "monday") "09:00" 9 0
    { year := 2024, month := 1, day := 1, minute := 600 }
    (Or.inr (Or.inl rfl)) (by decide) (by decide) (by decide) (by decide) (by decide)

/-- **C2, amended**: for weekly/biweekly schedules with a valid dayOfWeek,
the returned timestamp falls on the target weekday whenever the naive
candidate (today at the given time) has already passed; when the candidate
is still in the future the calculator returns it unchanged — same
calendar day as now, on whatever weekday today is — without consulting
dayOfWeek (see the counterexample). -/
theorem C2_amended_lands_on_target_day
    (frequency d t : String) (h m w : Nat) (now : DT)
    (hf : frequency = "weekly" ∨ frequency = "biweekly")
    (hv : ValidDT now) (hne : t ≠ "")
    (hp : (jsSplitColon t).map jsNumber = [some h, some m])
    (hh : h < 24) (hm : m < 60) (hdne : d ≠ "")
    (hw : jsIndexOf weekDays (jsToLowerCase d) = (w : Int)) (hwlt : w < 7)
    (hle : toAbs (todayAt now h m) ≤ toAbs now) :
    ∃ r : DT, calculateNextRun frequency (some d) (some t) now = some r
      ∧ getDay r = w := by
  have hvc := validDT_todayAt now h m hv hh hm
  have hvcc : ValidDT (addDays (todayAt now h m) 1) := (addDays_spec 1 _ hvc).1
  have hwne : ((w : Nat) : Int) ≠ -1 := by omega
  have hglt : getDay (addDays (todayAt now h m) 1) < 7 := getDay_lt _
  rcases hf with hf | hf <;> subst hf
  · rw [cnr_weekly_due d t h m now hne hp hh hm hdne _ hw hwne hle]
    refine ⟨_, rfl, ?_⟩
    rw [getDay_addDays _ _ hvcc]
    by_cases hdta : ((w : Int) + 7 - (getDay (addDays (todayAt now h m) 1) : Int)) % 7 = 0
    · rw [if_pos hdta, show ((7 : Int)).toNat = 7 from rfl]
      omega
    · rw [if_neg hdta]
      omega
  · rw [cnr_biweekly_due d t h m now hne hp hh hm hdne _ hw hwne hle]
    refine ⟨_, rfl, ?_⟩
    rw [getDay_addDays _ _ hvcc]
    by_cases hdta : ((w : Int) + 7 - (getDay (addDays (todayAt now h m) 1) : Int)) % 7 = 0
    · rw [if_pos hdta, show ((14 : Int)).toNat = 14 from rfl]
      omega
    · rw [if_neg hdta]
      omega

/-- Witness for the amended C2 (weekly for Friday, due, from a Monday). -/
theorem C2_witness :
    ∃ r : DT, calculateNextRun "weekly" (some "friday") (some "09:00")
        { year := 2024, month := 1, day := 1, minute := 600 } = some r
      ∧ getDay r = 5 :=
  C2_amended_lands_on_target_day "weekly" "friday" "09:00" 9 0 5
    { year := 2024, month := 1, day := 1, minute := 600 }
    (Or.inl rfl) (by decide) (by decide) (by decide) (by decide) (by decide)
    (by decide) (by decide) (by decide) (by decide)

theorem dayNumber_congr (a b : DT) (hy : a.year = b.year) (hmo : a.month = b.month)
    (hd : a.day = b.day) : dayNumber a = dayNumber b := by
  unfold dayNumber
  rw [hy, hmo, hd]

/-- **C3, amended**: for a weekly/biweekly schedule whose target weekday
equals today's weekday, the calculator never returns a timestamp on the
same calendar day as `now` PROVIDED the naive candidate (today at the
given time) has already passed; for a time-of-day still in the future
today it returns today at that time (see the counterexample), so the
"never later today" policy holds only for already-passed times. -/
theorem C3_amended_due_never_same_day
    (frequency d t : String) (h m : Nat) (now : DT)
    (hf : frequency = "weekly" ∨ frequency = "biweekly")
    (hv : ValidDT now) (hne : t ≠ "")
    (hp : (jsSplitColon t).map jsNumber = [some h, some m])
    (hh : h < 24) (hm : m < 60) (hdne : d ≠ "")
    (hw : jsIndexOf weekDays (jsToLowerCase d) = (getDay now : Int))
    (hle : toAbs (todayAt now h m) ≤ toAbs now) :
    ∃ r : DT, calculateNextRun frequency (some d) (some t) now = some r
      ∧ ¬(r.year = now.year ∧ r.month = now.month ∧ r.day = now.day) := by
  have hvc := validDT_todayAt now h m hv hh hm
  rcases hf with hf | hf <;> subst hf
  · refine ⟨_, cnr_sameweekday_weekly d t h m now hv hne hp hh hm hdne hw hle, ?_⟩
    rintro ⟨hy, hmo, hd⟩
    have hdn := dayNumber_addDays (todayAt now h m) 7 hvc
    rw [dayNumber_todayAt] at hdn
    have hcongr := dayNumber_congr (addDays (todayAt now h m) 7) now hy hmo hd
    omega
  · refine ⟨_, cnr_sameweekday_biweekly d t h m now hv hne hp hh hm hdne hw hle, ?_⟩
    rintro ⟨hy, hmo, hd⟩
    have hdn := dayNumber_addDays (todayAt now h m) 14 hvc
    rw [dayNumber_todayAt] at hdn
    have hcongr := dayNumber_congr (addDays (todayAt now h m) 14) now hy hmo hd
    omega

/-- Witness for the amended C3 (weekly for Monday, due, from a Monday). -/
theorem C3_witness :
    ∃ r : DT, calculateNextRun "weekly" (some "monday") (some "09:00")
        { year := 2024, month := 1, day := 1, minute := 600 } = some r
      ∧ ¬(r.year = 2024 ∧ r.month = 1 ∧ r.day = 1) :=
  C3_amended_due_never_same_day "weekly" "monday" "09:00" 9 0
    { year := 2024, month := 1, day := 1, minute := 600 }
    (Or.inl rfl) (by decide) (by decide) (by decide) (by decide) (by decide)
    (by decide) (by decide) (by decide)

/-- **C4**: for a weekly (resp. biweekly) schedule whose dayOfWeek equals
today's weekday and whose time-of-day is at or before `now`, the
calculator returns exactly 7 (resp. 14) days after today at the given
time. -/
theorem C4_same_weekday_due_adds_cycle
    (d t : String) (h m : Nat) (now : DT)
    (hv : ValidDT now) (hne : t ≠ "")
    (hp : (jsSplitColon t).map jsNumber = [some h, some m])
    (hh : h < 24) (hm : m < 60) (hdne : d ≠ "")
    (hw : jsIndexOf weekDays (jsToLowerCase d) = (getDay now : Int))
    (hle : toAbs (todayAt now h m) ≤ toAbs now) :
    calculateNextRun "weekly" (some d) (some t) now
        = some (addDays (todayAt now h m) 7)
    ∧ calculateNextRun "biweekly" (some d) (some t) now
        = some (addDays (todayAt now h m) 14)
    ∧ toAbs (addDays (todayAt now h m) 7) = toAbs (todayAt now h m) + 7 * 1440
    ∧ toAbs (addDays (todayAt now h m) 14) = toAbs (todayAt now h m) + 14 * 1440 :=
  ⟨cnr_sameweekday_weekly d t h m now hv hne hp hh hm hdne hw hle,
   cnr_sameweekday_biweekly d t h m now hv hne hp hh hm hdne hw hle,
   (addDays_spec 7 _ (validDT_todayAt now h m hv hh hm)).2.1,
   (addDays_spec 14 _ (validDT_todayAt now h m hv hh hm)).2.1⟩

/-- Witness for C4 (Monday schedule, run on Monday 10:00 with time
09:00 already passed). -/
theorem C4_witness :
    calculateNextRun "weekly" (some "monday") (some "09:00")
        { year := 2024, month := 1, day := 1, minute := 600 }
      = some (addDays (todayAt { year := 2024, month := 1, day := 1, minute := 600 } 9 0) 7)
    ∧ calculateNextRun "biweekly" (some "monday") (some "09:00")
        { year := 2024, month := 1, day := 1, minute := 600 }
      = some (addDays (todayAt { year := 2024, month := 1, day := 1, minute := 600 } 9 0) 14)
    ∧ toAbs (addDays (todayAt { year := 2024, month := 1, day := 1, minute := 600 } 9 0) 7)
      = toAbs (todayAt { year := 2024, month := 1, day := 1, minute := 600 } 9 0) + 7 * 1440
    ∧ toAbs (addDays (todayAt { year := 2024, month := 1, day := 1, minute := 600 } 9 0) 14)
      = toAbs (todayAt { year := 2024, month := 1, day := 1, minute := 600 } 9 0) + 14 * 1440 :=
  C4_same_weekday_due_adds_cycle "monday" "09:00" 9 0
    { year := 2024, month := 1, day := 1, minute := 600 }
    (by decide) (by decide) (by decide) (by decide) (by decide) (by decide)
    (by decide) (by decide)

/-- **C10, amended**: `calculateNextRun` returns a timestamp (never
throws) for every frequency string and every dayOfWeek string as long as
the time string's components parse as an in-range time of day; and when
the candidate has passed, an unrecognized frequency — or a weekly or
biweekly schedule whose dayOfWeek is not one of the seven weekday names
(`indexOf` = -1) — falls back to the next day at the given time.  For a
time string with a non-numeric component the function throws (see the
counterexample), so totality over every time string fails. -/
theorem C10_amended_total_and_fallback
    (frequency : String) (dayOfWeek : Option String) (t : String) (h m : Nat) (now : DT)
    (hv : ValidDT now) (hne : t ≠ "")
    (hp : (jsSplitColon t).map jsNumber = [some h, some m])
    (hh : h < 24) (hm : m < 60) :
    (∃ r : DT, calculateNextRun frequency dayOfWeek (some t) now = some r)
    ∧ (toAbs (todayAt now h m) ≤ toAbs now →
        frequency ≠ "daily" → frequency ≠ "weekly" → frequency ≠ "biweekly" →
        frequency ≠ "monthly" →
        calculateNextRun frequency dayOfWeek (some t) now
          = some (addDays (todayAt now h m) 1))
    ∧ (toAbs (todayAt now h m) ≤ toAbs now →
        (frequency = "weekly" ∨ frequency = "biweekly") →
        ∀ d, dayOfWeek = some d → jsIndexOf weekDays (jsToLowerCase d) = -1 →
        calculateNextRun frequency dayOfWeek (some t) now
          = some (addDays (todayAt now h m) 1)) := by
  refine ⟨?_, ?_, ?_⟩
  · obtain ⟨r, hr, _⟩ := cnr_future_helper frequency dayOfWeek t h m now hv hne hp hh hm
    exact ⟨r, hr⟩
  · intro hle hf1 hf2 hf3 hf4
    exact cnr_other_due frequency dayOfWeek t h m now hne hp hh hm hf1 hf2 hf3 hf4 hle
  · intro hle hf d hd hidx
    subst hd
    exact cnr_weekbi_noday frequency (some d) t h m now hne hp hh hm hf
      (Or.inr ⟨d, rfl, Or.inr hidx⟩) hle

/-- Witness for the amended C10: an unrecognized frequency and an invalid
day name still produce a result, falling back to the next day. -/
theorem C10_witness :
    (∃ r : DT, calculateNextRun "fortnightly" (some "notaday") (some "09:00")
        { year := 2024, month := 1, day := 1, minute := 600 } = some r)
    ∧ (toAbs (todayAt { year := 2024, month := 1, day := 1, minute := 600 } 9 0)
        ≤ toAbs { year := 2024, month := 1, day := 1, minute := 600 } →
        "fortnightly" ≠ "daily" → "fortnightly" ≠ "weekly" → "fortnightly" ≠ "biweekly" →
        "fortnightly" ≠ "monthly" →
        calculateNextRun "fortnightly" (some "notaday") (some "09:00")
            { year := 2024, month := 1, day := 1, minute := 600 }
          = some (addDays (todayAt { year := 2024, month := 1, day := 1, minute := 600 } 9 0) 1))
    ∧ (toAbs (todayAt { year := 2024, month := 1, day := 1, minute := 600 } 9 0)
        ≤ toAbs { year := 2024, month := 1, day := 1, minute := 600 } →
        ("fortnightly" = "weekly" ∨ "fortnightly" = "biweekly") →
        ∀ d, (some "notaday" : Option String) = some d →
        jsIndexOf weekDays (jsToLowerCase d) = -1 →
        calculateNextRun "fortnightly" (some "notaday") (some "09:00")
            { year := 2024, month := 1, day := 1, minute := 600 }
          = some (addDays (todayAt { year := 2024, month := 1, day := 1, minute := 600 } 9 0) 1)) :=
  C10_amended_total_and_fallback "fortnightly" (some "notaday") "09:00" 9 0
    { year := 2024, month := 1, day := 1, minute := 600 }
    (by decide) (by decide) (by decide) (by decide) (by decide)

/-- **C6**: whenever the publish step fails with an `Error` whose message
contains the term-collision marker "term_exists" — whether the publish
call throws it, or returns `success: false` with that message re-thrown —
the run ends with status `completed` (not `failed`), a warning `result`,
`lastRun = now`, and `nextRun` recomputed via the Next-Run Calculator;
the status then reverts to `scheduled` after the same 5000 ms delay as
the success path. -/
theorem C6_term_collision_soft_success
    (s : ScheduledPost) (now : DT) (content : String) (cats : List String) (msg : String)
    (hinc : jsIncludes msg "term_exists" = true) (hmsgne : msg ≠ "") :
    (generateScheduledContent s now (GenOutcome.ok content cats)
        (PubOutcome.thrown (Thrown.error msg))).final.status = Status.completed
    ∧ (generateScheduledContent s now (GenOutcome.ok content cats)
        (PubOutcome.thrown (Thrown.error msg))).final.result
        = some ("Content generated with a warning: " ++ termExistsFriendlyMsg)
    ∧ jsIncludes ("Content generated with a warning: " ++ termExistsFriendlyMsg)
        "warning" = true
    ∧ (generateScheduledContent s now (GenOutcome.ok content cats)
        (PubOutcome.thrown (Thrown.error msg))).final.lastRun = some now
    ∧ (generateScheduledContent s now (GenOutcome.ok content cats)
        (PubOutcome.thrown (Thrown.error msg))).final.nextRun
        = calculateNextRun (s.frequency.getD "") s.dayOfWeek (some s.time) now
    ∧ (generateScheduledContent s now (GenOutcome.ok content cats)
        (PubOutcome.thrown (Thrown.error msg))).delayMs
        = (generateScheduledContent s now (GenOutcome.ok content cats)
            (PubOutcome.ok true none)).delayMs
    ∧ (generateScheduledContent s now (GenOutcome.ok content cats)
        (PubOutcome.thrown (Thrown.error msg))).afterDelay.status = Status.scheduled
    ∧ generateScheduledContent s now (GenOutcome.ok content cats)
        (PubOutcome.ok false (some msg))
      = generateScheduledContent s now (GenOutcome.ok content cats)
        (PubOutcome.thrown (Thrown.error msg)) := by
  unfold generateScheduledContent
  dsimp only
  rw [if_neg hmsgne, hinc]
  simp only [eq_self_iff_true, if_true, Bool.true_eq_false, if_false, and_true, true_and]
  decide

/-- Witness for C6 at a concrete schedule and a concrete colliding
publish error. -/
theorem C6_witness :
    (generateScheduledContent sampleSchedule { year := 2024, month := 1, day := 1, minute := 600 }
        (GenOutcome.ok "post body" ["wordpress"])
        (PubOutcome.thrown (Thrown.error "term_exists: term already exists"))).final.status
      = Status.completed
    ∧ (generateScheduledContent sampleSchedule
        { year := 2024, month := 1, day := 1, minute := 600 }
        (GenOutcome.ok "post body" ["wordpress"])
        (PubOutcome.thrown (Thrown.error "term_exists: term already exists"))).final.result
      = some ("Content generated with a warning: " ++ termExistsFriendlyMsg)
    ∧ jsIncludes ("Content generated with a warning: " ++ termExistsFriendlyMsg)
        "warning" = true
    ∧ (generateScheduledContent sampleSchedule
        { year := 2024, month := 1, day := 1, minute := 600 }
        (GenOutcome.ok "post body" ["wordpress"])
        (PubOutcome.thrown (Thrown.error "term_exists: term already exists"))).final.lastRun
      = some { year := 2024, month := 1, day := 1, minute := 600 }
    ∧ (generateScheduledContent sampleSchedule
        { year := 2024, month := 1, day := 1, minute := 600 }
        (GenOutcome.ok "post body" ["wordpress"])
        (PubOutcome.thrown (Thrown.error "term_exists: term already exists"))).final.nextRun
      = calculateNextRun (sampleSchedule.frequency.getD "") sampleSchedule.dayOfWeek
          (some sampleSchedule.time) { year := 2024, month := 1, day := 1, minute := 600 }
    ∧ (generateScheduledContent sampleSchedule
        { year := 2024, month := 1, day := 1, minute := 600 }
        (GenOutcome.ok "post body" ["wordpress"])
        (PubOutcome.thrown (Thrown.error "term_exists: term already exists"))).delayMs
      = (generateScheduledContent sampleSchedule
          { year := 2024, month := 1, day := 1, minute := 600 }
          (GenOutcome.ok "post body" ["wordpress"]) (PubOutcome.ok true none)).delayMs
    ∧ (generateScheduledContent sampleSchedule
        { year := 2024, month := 1, day := 1, minute := 600 }
        (GenOutcome.ok "post body" ["wordpress"])
        (PubOutcome.thrown (Thrown.error "term_exists: term already exists"))).afterDelay.status
      = Status.scheduled
    ∧ generateScheduledContent sampleSchedule
        { year := 2024, month := 1, day := 1, minute := 600 }
        (GenOutcome.ok "post body" ["wordpress"])
        (PubOutcome.ok false (some "term_exists: term already exists"))
      = generateScheduledContent sampleSchedule
          { year := 2024, month := 1, day := 1, minute := 600 }
          (GenOutcome.ok "post body" ["wordpress"])
          (PubOutcome.thrown (Thrown.error "term_exists: term already exists")) :=
  C6_term_collision_soft_success sampleSchedule
    { year := 2024, month := 1, day := 1, minute := 600 }
    "post body" ["wordpress"] "term_exists: term already exists" (by decide) (by decide)

/-- **C7**: any run failure other than a term collision — the generation
call throwing, or the publish call throwing, a non-"term_exists" `Error` —
sets status `failed` with the error message as `result`, leaves `lastRun`
and `nextRun` untouched (no recomputation by the calculator), and after
the 10000 ms delay (longer than the success path's) reverts the status to
`scheduled` with `nextRun` still unchanged, so a still-due schedule is
picked up again by the very next poller tick. -/
theorem C7_hard_failure_keeps_nextRun
    (s : ScheduledPost) (now : DT) (content : String) (cats : List String)
    (msg : String) (pub : PubOutcome)
    (hninc : jsIncludes msg "term_exists" = false) :
    ((generateScheduledContent s now (GenOutcome.thrown (Thrown.error msg)) pub).final.status
        = Status.failed
      ∧ (generateScheduledContent s now (GenOutcome.thrown (Thrown.error msg)) pub).final.result
        = some msg
      ∧ (generateScheduledContent s now (GenOutcome.thrown (Thrown.error msg)) pub).final.nextRun
        = s.nextRun
      ∧ (generateScheduledContent s now (GenOutcome.thrown (Thrown.error msg)) pub).final.lastRun
        = s.lastRun
      ∧ (generateScheduledContent s now (GenOutcome.thrown (Thrown.error msg)) pub).delayMs
        = 10000
      ∧ (generateScheduledContent s now (GenOutcome.ok content cats)
          (PubOutcome.ok true none)).delayMs
        < (generateScheduledContent s now (GenOutcome.thrown (Thrown.error msg)) pub).delayMs
      ∧ (generateScheduledContent s now
          (GenOutcome.thrown (Thrown.error msg)) pub).afterDelay.status = Status.scheduled
      ∧ (generateScheduledContent s now
          (GenOutcome.thrown (Thrown.error msg)) pub).afterDelay.nextRun = s.nextRun)
    ∧ ((generateScheduledContent s now (GenOutcome.ok content cats)
          (PubOutcome.thrown (Thrown.error msg))).final.status = Status.failed
      ∧ (generateScheduledContent s now (GenOutcome.ok content cats)
          (PubOutcome.thrown (Thrown.error msg))).final.result = some msg
      ∧ (generateScheduledContent s now (GenOutcome.ok content cats)
          (PubOutcome.thrown (Thrown.error msg))).final.nextRun = s.nextRun
      ∧ (generateScheduledContent s now (GenOutcome.ok content cats)
          (PubOutcome.thrown (Thrown.error msg))).afterDelay.status = Status.scheduled
      ∧ (generateScheduledContent s now (GenOutcome.ok content cats)
          (PubOutcome.thrown (Thrown.error msg))).afterDelay.nextRun = s.nextRun)
    ∧ (∀ nr, s.nextRun = some nr → toAbs nr ≤ toAbs now →
        checkSchedules now
          [(generateScheduledContent s now (GenOutcome.thrown (Thrown.error msg)) pub).afterDelay]
          = [{ (generateScheduledContent s now
                (GenOutcome.thrown (Thrown.error msg)) pub).afterDelay with
              status := Status.inProgress, lastRun := some now }]) := by
  unfold generateScheduledContent
  dsimp only
  rw [hninc]
  simp only [Bool.false_eq_true, Bool.true_eq_false, if_false, eq_self_iff_true, if_true,
    and_true, true_and]
  refine ⟨by norm_num, ?_⟩
  intro nr hnr hle
  unfold checkSchedules
  dsimp only [List.map]
  unfold checkOne
  rw [if_neg (by simp : ¬ ¬ (Status.scheduled = Status.scheduled))]
  rw [hnr]
  dsimp only
  rw [if_pos hle]

/-- Witness for C7 at a concrete schedule and a concrete non-collision
error. -/
theorem C7_witness :
    (generateScheduledContent sampleSchedule { year := 2024, month := 1, day := 1, minute := 600 }
        (GenOutcome.thrown (Thrown.error "Request failed with status 500"))
        (PubOutcome.ok true none)).final.status = Status.failed
    ∧ (generateScheduledContent sampleSchedule
        { year := 2024, month := 1, day := 1, minute := 600 }
        (GenOutcome.thrown (Thrown.error "Request failed with status 500"))
        (PubOutcome.ok true none)).final.result = some "Request failed with status 500"
    ∧ (generateScheduledContent sampleSchedule
        { year := 2024, month := 1, day := 1, minute := 600 }
        (GenOutcome.thrown (Thrown.error "Request failed with status 500"))
        (PubOutcome.ok true none)).final.nextRun = sampleSchedule.nextRun
    ∧ (generateScheduledContent sampleSchedule
        { year := 2024, month := 1, day := 1, minute := 600 }
        (GenOutcome.thrown (Thrown.error "Request failed with status 500"))
        (PubOutcome.ok true none)).afterDelay.status = Status.scheduled :=
  ⟨(C7_hard_failure_keeps_nextRun sampleSchedule
      { year := 2024, month := 1, day := 1, minute := 600 } "body" []
      "Request failed with status 500" (PubOutcome.ok true none) (by decide)).1.1,
   (C7_hard_failure_keeps_nextRun sampleSchedule
      { year := 2024, month := 1, day := 1, minute := 600 } "body" []
      "Request failed with status 500" (PubOutcome.ok true none) (by decide)).1.2.1,
   (C7_hard_failure_keeps_nextRun sampleSchedule
      { year := 2024, month := 1, day := 1, minute := 600 } "body" []
      "Request failed with status 500" (PubOutcome.ok true none) (by decide)).1.2.2.1,
   (C7_hard_failure_keeps_nextRun sampleSchedule
      { year := 2024, month := 1, day := 1, minute := 600 } "body" []
      "Request failed with status 500" (PubOutcome.ok true none) (by decide)).1.2.2.2.2.2.2.1⟩

/-- **C8, counterexample**: the catch-all handler classifies by message
content only, so a GENERATION failure whose message happens to contain
"term_exists" ends the run with status `completed`, not `failed` — the
claim's "always a hard failure" does not hold on the code. -/
theorem C8_counterexample :
    (generateScheduledContent sampleSchedule { year := 2024, month := 1, day := 1, minute := 600 }
        (GenOutcome.thrown (Thrown.error "generation failed: term_exists"))
        (PubOutcome.ok true none)).final.status = Status.completed
    ∧ Status.completed ≠ Status.failed := by decide

/-- **C8, amended**: a failure of the generation step is a hard failure —
status `failed`, never `completed` — for every thrown `Error` whose
message does not contain "term_exists", and for every thrown non-`Error`
value. -/
theorem C8_amended_generation_failure_hard
    (s : ScheduledPost) (now : DT) (pub : PubOutcome) (msg : String)
    (hninc : jsIncludes msg "term_exists" = false) :
    (generateScheduledContent s now (GenOutcome.thrown (Thrown.error msg)) pub).final.status
        = Status.failed
    ∧ (generateScheduledContent s now (GenOutcome.thrown Thrown.other) pub).final.status
        = Status.failed := by
  unfold generateScheduledContent
  dsimp only
  rw [hninc]
  simp only [Bool.false_eq_true, if_false]
  exact ⟨by trivial, by trivial⟩

/-- Witness for the amended C8 at a concrete generation error. -/
theorem C8_witness :
    (generateScheduledContent sampleSchedule { year := 2024, month := 1, day := 1, minute := 600 }
        (GenOutcome.thrown (Thrown.error "model unreachable"))
        (PubOutcome.ok true none)).final.status = Status.failed
    ∧ (generateScheduledContent sampleSchedule
        { year := 2024, month := 1, day := 1, minute := 600 }
        (GenOutcome.thrown Thrown.other) (PubOutcome.ok true none)).final.status
        = Status.failed :=
  C8_amended_generation_failure_hard sampleSchedule
    { year := 2024, month := 1, day := 1, minute := 600 }
    (PubOutcome.ok true none) "model unreachable" (by decide)

/-- **C9**: one poller tick preserves the list's length, transitions
exactly the entries that are in `scheduled` status with a non-null
`nextRun` that is at or before `now` — setting status `in-progress` and
stamping `lastRun = now` — and leaves every other entry unchanged. -/
theorem C9_poller_tick_spec (now : DT) (schedules : List ScheduledPost) :
    (checkSchedules now schedules).length = schedules.length
    ∧ ∀ (i : Nat) (hi : i < schedules.length)
        (hi2 : i < (checkSchedules now schedules).length),
      ((schedules.get ⟨i, hi⟩).status = Status.scheduled →
        ∀ nr, (schedules.get ⟨i, hi⟩).nextRun = some nr → toAbs nr ≤ toAbs now →
        (checkSchedules now schedules).get ⟨i, hi2⟩
          = { schedules.get ⟨i, hi⟩ with
              status := Status.inProgress, lastRun := some now })
      ∧ ((schedules.get ⟨i, hi⟩).status ≠ Status.scheduled
          ∨ (schedules.get ⟨i, hi⟩).nextRun = none
          ∨ (∃ nr, (schedules.get ⟨i, hi⟩).nextRun = some nr ∧ toAbs now < toAbs nr) →
        (checkSchedules now schedules).get ⟨i, hi2⟩ = schedules.get ⟨i, hi⟩) := by
  refine ⟨by simp [checkSchedules], ?_⟩
  intro i hi hi2
  have hget : (checkSchedules now schedules).get ⟨i, hi2⟩
      = checkOne now (schedules.get ⟨i, hi⟩) := by
    simp [checkSchedules]
  constructor
  · intro hst nr hnr hle
    rw [hget]
    unfold checkOne
    rw [if_neg (fun hcon => hcon hst), hnr]
    dsimp only
    rw [if_pos hle, hnr]
  · intro hcond
    rw [hget]
    unfold checkOne
    by_cases hst : (schedules.get ⟨i, hi⟩).status = Status.scheduled
    · rw [if_neg (fun hcon => hcon hst)]
      rcases hcond with hc | hc | ⟨nr, hnr, hgt⟩
      · exact absurd hst hc
      · rw [hc]
      · rw [hnr]
        dsimp only
        rw [if_neg (by omega)]
    · rw [if_pos hst]

/-- Witness for C9: a single due schedule is picked up by the tick. -/
theorem C9_witness :
    (checkSchedules { year := 2024, month := 1, day := 1, minute := 600 }
        [{ sampleSchedule with status := Status.scheduled }]).get ⟨0, by decide⟩
      = { sampleSchedule with
          status := Status.inProgress,
          lastRun := some { year := 2024, month := 1, day := 1, minute := 600 } } :=
  ((C9_poller_tick_spec { year := 2024, month := 1, day := 1, minute := 600 }
      [{ sampleSchedule with status := Status.scheduled }]).2 0 (by decide) (by decide)).1
    (by decide) { year := 2024, month := 1, day := 1, minute := 540 } (by decide) (by decide)
